import Mathlib

/-
Verification development for the HtmlTestReport repository
(src/HtmlTestReport/main.py).

The file embeds the report data model (TestCase, TestSuite, TestResult), the
aggregation operations (addTestCase, addSuite) and the rendering pipeline of
HTMLTestRunner as executable Lean definitions, and proves or refutes the
frozen claims about them.

Python reference semantics matter in exactly one place: `copy.copy` performs a
shallow copy, so the `TestCases` list object of a suite is shared between the
original suite and the copy stored inside a `TestResult`.  List objects are
therefore modelled through an explicit heap (`Heap`) mapping a list reference
to its current contents; every other field of every object is an immutable
scalar (string / enum / int) for which a record copy is an exact model.
-/

/-- Status enum `TestCaseStatus` (main.py lines 439-443). -/
inductive TestCaseStatus where
  | UNKNOWN
  | SUCCESS
  | FAILURE
  | ERROR
deriving DecidableEq

/-- A test case record (main.py lines 446-454).  Python initializes `CaseName`
to `None` and `tid` to the empty string; both are always written before being
read (the name via `setCaseName`, the tid by `TestSuite.addTestCase`), so they
are modelled with inert defaults `""` and `0`. -/
structure TestCase where
  CaseName : String
  CaseStatus : TestCaseStatus
  CaseDescription : String
  ErrorStackTrace : String
  tid : Nat
deriving DecidableEq

/-- The `TestCase()` constructor (main.py lines 447-454). -/
def newTestCase : TestCase :=
  { CaseName := "", CaseStatus := TestCaseStatus.UNKNOWN, CaseDescription := "",
    ErrorStackTrace := "", tid := 0 }

/-- Heap of Python list objects: a list reference (`Nat`) maps to the current
contents of that list object; `nextRef` is the next fresh reference.  This
models the sharing created by the shallow `copy.copy` at main.py line 558. -/
structure Heap where
  lists : Nat → List TestCase
  nextRef : Nat

/-- In-place overwrite of the contents of one list object. -/
def Heap.update (h : Heap) (r : Nat) (l : List TestCase) : Heap :=
  { h with lists := fun x => if x = r then l else h.lists x }

/-- A heap with no allocated list objects. -/
def emptyHeap : Heap :=
  { lists := fun _ => [], nextRef := 0 }

/-- A test suite record (main.py lines 484-493).  `casesRef` is the reference
to this suite's `TestCases` list object; `SuiteName` is initialized to `None`
in Python, modelled as `""`. -/
structure TestSuite where
  SuiteName : String
  casesRef : Nat
  SuiteDescription : String
  PassedCaseCount : Nat
  FailedCaseCount : Nat
  ErrorCaseCount : Nat
  sid : Nat
  max_tid : Nat
deriving DecidableEq

/-- The `TestSuite()` constructor (main.py lines 485-493): allocates a fresh
empty `TestCases` list object. -/
def newTestSuite (h : Heap) : TestSuite × Heap :=
  ({ SuiteName := "", casesRef := h.nextRef, SuiteDescription := "",
     PassedCaseCount := 0, FailedCaseCount := 0, ErrorCaseCount := 0,
     sid := 0, max_tid := 1 },
   { lists := fun x => if x = h.nextRef then [] else h.lists x,
     nextRef := h.nextRef + 1 })

/-- `TestSuite.addTestCase` (main.py lines 501-511): bump the counter matching
the case status (`UNKNOWN` bumps none of the three), shallow-copy the case
(all of its fields are immutable scalars, so the copy is a record copy), stamp
the copy with `max_tid`, append it to this suite's `TestCases` list object and
advance `max_tid`. -/
def TestSuite.addTestCase (s : TestSuite) (c : TestCase) (h : Heap) : TestSuite × Heap :=
  let passed := if c.CaseStatus = TestCaseStatus.SUCCESS then s.PassedCaseCount + 1 else s.PassedCaseCount
  let failed := if c.CaseStatus = TestCaseStatus.FAILURE then s.FailedCaseCount + 1 else s.FailedCaseCount
  let errored := if c.CaseStatus = TestCaseStatus.ERROR then s.ErrorCaseCount + 1 else s.ErrorCaseCount
  let m := { c with tid := s.max_tid }
  ({ s with PassedCaseCount := passed, FailedCaseCount := failed,
            ErrorCaseCount := errored, max_tid := s.max_tid + 1 },
   h.update s.casesRef (h.lists s.casesRef ++ [m]))

/-- A sequence of `addTestCase` calls on one suite, left to right. -/
def addTestCases (s : TestSuite) (cs : List TestCase) (h : Heap) : TestSuite × Heap :=
  match cs with
  | [] => (s, h)
  | c :: rest =>
      let sh := s.addTestCase c h
      addTestCases sh.1 rest sh.2

/-- A test result record (main.py lines 541-550). -/
structure TestResult where
  TestResults : List TestSuite
  success_count : Nat
  failure_count : Nat
  error_count : Nat
  max_sid : Nat
deriving DecidableEq

/-- The `TestResult()` constructor (main.py lines 545-550). -/
def newTestResult : TestResult :=
  { TestResults := [], success_count := 0, failure_count := 0, error_count := 0,
    max_sid := 1 }

/-- `TestResult.addSuite` (main.py lines 552-561): add the suite's counters to
the global counters, shallow-copy the suite (`copy.copy`, so the copy shares
the `TestCases` list object: same `casesRef`), stamp the copy with `max_sid`,
advance `max_sid` and append the copy. -/
def TestResult.addSuite (r : TestResult) (s : TestSuite) : TestResult :=
  let m := { s with sid := r.max_sid }
  { r with success_count := r.success_count + s.PassedCaseCount,
           failure_count := r.failure_count + s.FailedCaseCount,
           error_count := r.error_count + s.ErrorCaseCount,
           max_sid := r.max_sid + 1,
           TestResults := r.TestResults ++ [m] }

/-- `xml.sax.saxutils.escape` restricted to its default entities: the escape
of one character. -/
def escapeChar (c : Char) : String :=
  if c = '&' then "&amp;"
  else if c = '<' then "&lt;"
  else if c = '>' then "&gt;"
  else String.singleton c

/-- `xml.sax.saxutils.escape` with default entities, as used throughout
main.py: replace `&`, `<`, `>` by their markup entity escapes. -/
def escape (s : String) : String :=
  String.join (s.data.map escapeChar)

/-- Presentation state of `HTMLTestRunner` (main.py lines 564-580): the title
and description given to the constructor, and the formatted start time and
duration strings that `getReportAttributes` derives from the two `datetime`
values (datetime formatting is outside the model, so the two formatted strings
are carried as opaque inputs — presentation metadata). -/
structure HTMLTestRunner where
  title : String
  description : String
  startTimeStr : String
  durationStr : String

/-- Modelled from the spec: the generator identity string substitutes the
package version; `__version__` lives in `HtmlTestReport/__init__.py`, which is
not among the sources.  It is an opaque constant no claim depends on. -/
def versionString : String := "0"

/-- The status summary computed inside `HTMLTestRunner.getReportAttributes`
(main.py lines 589-596).  Python `if result.success_count:` is an int
truthiness test, i.e. the count is nonzero; `if status:` tests that the list
of parts is nonempty, otherwise the literal `"none"` is used. -/
def statusSummary (result : TestResult) : String :=
  let status : List String :=
    (if result.success_count ≠ 0 then ["通过 " ++ toString result.success_count] else []) ++
    (if result.failure_count ≠ 0 then ["失败 " ++ toString result.failure_count] else []) ++
    (if result.error_count ≠ 0 then ["错误 " ++ toString result.error_count] else [])
  if status.isEmpty then "none" else String.intercalate " " status

/-- `HTMLTestRunner.getReportAttributes` (main.py lines 582-601). -/
def getReportAttributes (self : HTMLTestRunner) (result : TestResult) : List (String × String) :=
  [("开始时间", self.startTimeStr), ("运行时长", self.durationStr), ("状态", statusSummary result)]

/-- The status summary as the specification words it: the space-separated
concatenation of exactly the non-zero categories among the pass, failure and
error counts, and the literal `"none"` when all three counts are zero. -/
def statusSummarySpec (result : TestResult) : String :=
  if result.success_count = 0 ∧ result.failure_count = 0 ∧ result.error_count = 0 then "none"
  else
    String.intercalate " "
      ((if result.success_count ≠ 0 then ["通过 " ++ toString result.success_count] else []) ++
       (if result.failure_count ≠ 0 then ["失败 " ++ toString result.failure_count] else []) ++
       (if result.error_count ≠ 0 then ["错误 " ++ toString result.error_count] else []))

/-- `leadsWith p l` : `p` is an initial segment of `l`. -/
def leadsWith : List Char → List Char → Bool
  | [], _ => true
  | _ :: _, [] => false
  | a :: p, b :: l => a == b && leadsWith p l

/-- `occursIn p l` : `p` occurs as a contiguous segment of `l`. -/
def occursIn (p : List Char) : List Char → Bool
  | [] => leadsWith p []
  | b :: l => leadsWith p (b :: l) || occursIn p l
/-- HTML_TMPL of HtmlFileTemplate (main.py lines 72-190), as the formatting function of its named parameters. -/
def HTML_TMPL (title generator stylesheet heading report ending chart_script : String) : String :=
  "<?xml version=\"1.0\" encoding=\"UTF-8\"?>\n<!DOCTYPE html PUBLIC \"-//W3C//DTD XHTML 1.0 Strict//EN\" \"http://www.w3.org/TR/xhtml1/DTD/xhtml1-strict.dtd\">\n<html xmlns=\"http://www.w3.org/1999/xhtml\">\n<head>\n    <title>" ++ title ++ "</title>\n    <meta name=\"generator\" content=\"" ++ generator ++ "\"/>\n    <meta http-equiv=\"Content-Type\" content=\"text/html; charset=UTF-8\"/>\n    \n    <link href=\"css/bootstrap.min.css\" rel=\"stylesheet\">\n    <script type=\"text/javascript\" src=\"js/echarts.common.min.js\"></script>\n    \n    " ++ stylesheet ++ "\n    \n</head>\n<body>\n    <script language=\"javascript\" type=\"text/javascript\"><!-\x2d\n    output_list = Array();\n\n    /* level - 0:Summary; 1:Failed; 2:All */\n    function showCase(level) \x7b\n        trs = document.getElementsByTagName(\"tr\");\n        for (var i = 0; i < trs.length; i++) \x7b\n            tr = trs[i];\n            id = tr.id;\n            if (id.substr(0,2) == \x27ft\x27) \x7b\n                if (level < 1) \x7b\n                    tr.className = \x27hiddenRow\x27;\n                \x7d\n                else \x7b\n                    tr.className = \x27\x27;\n                \x7d\n            \x7d\n            if (id.substr(0,2) == \x27pt\x27) \x7b\n                if (level > 1) \x7b\n                    tr.className = \x27\x27;\n                \x7d\n                else \x7b\n                    tr.className = \x27hiddenRow\x27;\n                \x7d\n            \x7d\n        \x7d\n    \x7d\n\n\n    function showClassDetail(cid, count) \x7b\n        var id_list = Array(count);\n        var toHide = 1;\n        for (var i = 0; i < count; i++) \x7b\n            tid0 = \x27t\x27 + cid.substr(1) + \x27.\x27 + (i+1);\n            tid = \x27f\x27 + tid0;\n            tr = document.getElementById(tid);\n            if (!tr) \x7b\n                tid = \x27p\x27 + tid0;\n                tr = document.getElementById(tid);\n            \x7d\n            id_list[i] = tid;\n            if (tr.className) \x7b\n                toHide = 0;\n            \x7d\n        \x7d\n        for (var i = 0; i < count; i++) \x7b\n            tid = id_list[i];\n            if (toHide) \x7b\n                document.getElementById(\x27div_\x27+tid).style.display = \x27none\x27\n                document.getElementById(tid).className = \x27hiddenRow\x27;\n            \x7d\n            else \x7b\n                document.getElementById(tid).className = \x27\x27;\n            \x7d\n        \x7d\n    \x7d\n\n\n    function showTestDetail(div_id)\x7b\n        var details_div = document.getElementById(div_id)\n        var displayState = details_div.style.display\n        // alert(displayState)\n        if (displayState != \x27block\x27 ) \x7b\n            displayState = \x27block\x27\n            details_div.style.display = \x27block\x27\n        \x7d\n        else \x7b\n            details_div.style.display = \x27none\x27\n        \x7d\n    \x7d\n\n\n    function html_escape(s) \x7b\n        s = s.replace(/&/g,\x27&amp;\x27);\n        s = s.replace(/</g,\x27&lt;\x27);\n        s = s.replace(/>/g,\x27&gt;\x27);\n        return s;\n    \x7d\n\n    /* obsoleted by detail in <div>\n    function showOutput(id, name) \x7b\n        var w = window.open(\"\", //url\n                        name,\n                        \"resizable,scrollbars,status,width=800,height=450\");\n        d = w.document;\n        d.write(\"<pre>\");\n        d.write(html_escape(output_list[id]));\n        d.write(\"\\n\");\n        d.write(\"<a href=\x27javascript:window.close()\x27>close</a>\\n\");\n        d.write(\"</pre>\\n\");\n        d.close();\n    \x7d\n    */\n    -\x2d></script>\n\n    <div id=\"div_base\">\n        " ++ heading ++ "\n        " ++ report ++ "\n        " ++ ending ++ "\n        " ++ chart_script ++ "\n    </div>\n</body>\n</html>\n"

/-- ECHARTS_SCRIPT of HtmlFileTemplate (main.py lines 192-238). -/
def ECHARTS_SCRIPT (Pass fail error : String) : String :=
  "\n    <script type=\"text/javascript\">\n        // 基于准备好的dom，初始化echarts实例\n        var myChart = echarts.init(document.getElementById(\x27chart\x27));\n\n        // 指定图表的配置项和数据\n        var option = \x7b\n            title : \x7b\n                text: \x27测试执行情况\x27,\n                x:\x27center\x27\n            \x7d,\n            tooltip : \x7b\n                trigger: \x27item\x27,\n                formatter: \"\x7ba\x7d <br/>\x7bb\x7d : \x7bc\x7d (\x7bd\x7d%)\"\n            \x7d,\n            color: [\x27#95b75d\x27, \x27grey\x27, \x27#b64645\x27],\n            legend: \x7b\n                orient: \x27vertical\x27,\n                left: \x27left\x27,\n                data: [\x27通过\x27,\x27失败\x27,\x27错误\x27]\n            \x7d,\n            series : [\n                \x7b\n                    name: \x27测试执行情况\x27,\n                    type: \x27pie\x27,\n                    radius : \x2760%\x27,\n                    center: [\x2750%\x27, \x2760%\x27],\n                    data:[\n                        \x7bvalue:" ++ Pass ++ ", name:\x27通过\x27\x7d,\n                        \x7bvalue:" ++ fail ++ ", name:\x27失败\x27\x7d,\n                        \x7bvalue:" ++ error ++ ", name:\x27错误\x27\x7d\n                    ],\n                    itemStyle: \x7b\n                        emphasis: \x7b\n                            shadowBlur: 10,\n                            shadowOffsetX: 0,\n                            shadowColor: \x27rgba(0, 0, 0, 0.5)\x27\n                        \x7d\n                    \x7d\n                \x7d\n            ]\n        \x7d;\n\n        // 使用刚指定的配置项和数据显示图表。\n        myChart.setOption(option);\n    </script>\n    "

/-- STYLESHEET_TMPL of HtmlFileTemplate (main.py lines 246-333); a plain string, never %-formatted. -/
def STYLESHEET_TMPL : String :=
  "\n<style type=\"text/css\" media=\"screen\">\n    body        \x7b font-family: Microsoft YaHei,Consolas,arial,sans-serif; font-size: 80%; \x7d\n    table       \x7b font-size: 100%; \x7d\n    pre         \x7b white-space: pre-wrap;word-wrap: break-word; \x7d\n\n    /* -\x2d heading -\x2d-\x2d-\x2d-\x2d-\x2d-\x2d-\x2d-\x2d-\x2d-\x2d-\x2d-\x2d-\x2d-\x2d-\x2d-\x2d-\x2d-\x2d-\x2d-\x2d-\x2d-\x2d-\x2d-\x2d-\x2d-\x2d-\x2d-\x2d-\x2d-\x2d-\x2d-\x2d-\x2d-\x2d-\x2d */\n    h1 \x7b\n        font-size: 16pt;\n        color: gray;\n    \x7d\n    .heading \x7b\n        margin-top: 0ex;\n        margin-bottom: 1ex;\n    \x7d\n\n    .heading .attribute \x7b\n        margin-top: 1ex;\n        margin-bottom: 0;\n    \x7d\n\n    .heading .description \x7b\n        margin-top: 2ex;\n        margin-bottom: 3ex;\n    \x7d\n\n    /* -\x2d css div popup -\x2d-\x2d-\x2d-\x2d-\x2d-\x2d-\x2d-\x2d-\x2d-\x2d-\x2d-\x2d-\x2d-\x2d-\x2d-\x2d-\x2d-\x2d-\x2d-\x2d-\x2d-\x2d-\x2d-\x2d-\x2d-\x2d-\x2d-\x2d-\x2d-\x2d-\x2d-\x2d-\x2d-\x2d-\x2d-\x2d */\n    a.popup_link \x7b\n    \x7d\n\n    a.popup_link:hover \x7b\n        color: red;\n    \x7d\n\n    .popup_window \x7b\n        display: none;\n        position: relative;\n        left: 0px;\n        top: 0px;\n        /*border: solid #627173 1px; */\n        padding: 10px;\n        /*background-color: #E6E6D6; */\n        font-family: \"Lucida Console\", \"Courier New\", Courier, monospace;\n        text-align: left;\n        font-size: 8pt;\n        /* width: 500px;*/\n    \x7d\n\n    \x7d\n    /* -\x2d report -\x2d-\x2d-\x2d-\x2d-\x2d-\x2d-\x2d-\x2d-\x2d-\x2d-\x2d-\x2d-\x2d-\x2d-\x2d-\x2d-\x2d-\x2d-\x2d-\x2d-\x2d-\x2d-\x2d-\x2d-\x2d-\x2d-\x2d-\x2d-\x2d-\x2d-\x2d-\x2d-\x2d-\x2d-\x2d-\x2d */\n    #show_detail_line \x7b\n        margin-top: 3ex;\n        margin-bottom: 1ex;\n    \x7d\n    #result_table \x7b\n        width: 99%;\n    \x7d\n    #header_row \x7b\n        font-weight: bold;\n        color: #303641;\n        background-color: #ebebeb;\n    \x7d\n    #total_row  \x7b font-weight: bold; \x7d\n    .passClass  \x7b background-color: #bdedbc; \x7d\n    .failClass  \x7b background-color: #ffefa4; \x7d\n    .errorClass \x7b background-color: #ffc9c9; \x7d\n    .passCase   \x7b color: #6c6; \x7d\n    .failCase   \x7b color: #FF6600; font-weight: bold; \x7d\n    .errorCase  \x7b color: #c00; font-weight: bold; \x7d\n    .hiddenRow  \x7b display: none; \x7d\n    .testcase   \x7b margin-left: 2em; \x7d\n\n\n    /* -\x2d ending -\x2d-\x2d-\x2d-\x2d-\x2d-\x2d-\x2d-\x2d-\x2d-\x2d-\x2d-\x2d-\x2d-\x2d-\x2d-\x2d-\x2d-\x2d-\x2d-\x2d-\x2d-\x2d-\x2d-\x2d-\x2d-\x2d-\x2d-\x2d-\x2d-\x2d-\x2d-\x2d-\x2d-\x2d-\x2d */\n    #ending \x7b\n    \x7d\n\n    #div_base \x7b\n                position:absolute;\n                top:0%;\n                left:5%;\n                right:5%;\n                width: auto;\n                height: auto;\n                margin: -15px 0 0 0;\n    \x7d\n</style>\n"

/-- HEADING_TMPL of HtmlFileTemplate (main.py lines 339-346). -/
def HEADING_TMPL (title parameters description : String) : String :=
  "\n    <div class=\x27page-header\x27>\n        <h1>" ++ title ++ "</h1>\n    " ++ parameters ++ "\n    </div>\n    <div style=\"float: left;width:50%;\"><p class=\x27description\x27>" ++ description ++ "</p></div>\n    <div id=\"chart\" style=\"width:50%;height:400px;float:left;\"></div>\n"

/-- HEADING_ATTRIBUTE_TMPL of HtmlFileTemplate (main.py lines 348-349). -/
def HEADING_ATTRIBUTE_TMPL (name value : String) : String :=
  "<p class=\x27attribute\x27><strong>" ++ name ++ ":</strong> " ++ value ++ "</p>\n"

/-- REPORT_TMPL of HtmlFileTemplate (main.py lines 355-389). -/
def REPORT_TMPL (test_list count Pass fail error : String) : String :=
  "\n    <div class=\"btn-group btn-group-sm\">\n        <button class=\"btn btn-default\" onclick=\x27javascript:showCase(0)\x27>总结</button>\n        <button class=\"btn btn-default\" onclick=\x27javascript:showCase(1)\x27>失败</button>\n        <button class=\"btn btn-default\" onclick=\x27javascript:showCase(2)\x27>全部</button>\n    </div>\n    <p></p>\n    <table id=\x27result_table\x27 class=\"table table-bordered\">\n        <colgroup>\n            <col align=\x27left\x27 />\n            <col align=\x27right\x27 />\n            <col align=\x27right\x27 />\n            <col align=\x27right\x27 />\n            <col align=\x27right\x27 />\n            <col align=\x27right\x27 />\n        </colgroup>\n        <tr id=\x27header_row\x27>\n            <td>测试套件/测试用例</td>\n            <td>总数</td>\n            <td>通过</td>\n            <td>失败</td>\n            <td>错误</td>\n            <td>查看</td>\n        </tr>\n        " ++ test_list ++ "\n        <tr id=\x27total_row\x27>\n            <td>总计</td>\n            <td>" ++ count ++ "</td>\n            <td>" ++ Pass ++ "</td>\n            <td>" ++ fail ++ "</td>\n            <td>" ++ error ++ "</td>\n            <td>&nbsp;</td>\n        </tr>\n    </table>\n"

/-- REPORT_CLASS_TMPL of HtmlFileTemplate (main.py lines 391-400): the per-suite summary row. -/
def REPORT_CLASS_TMPL (style desc count Pass fail error cid : String) : String :=
  "\n    <tr class=\x27" ++ style ++ "\x27>\n        <td>" ++ desc ++ "</td>\n        <td>" ++ count ++ "</td>\n        <td>" ++ Pass ++ "</td>\n        <td>" ++ fail ++ "</td>\n        <td>" ++ error ++ "</td>\n        <td><a href=\"javascript:showClassDetail(\x27" ++ cid ++ "\x27," ++ count ++ ")\">详情</a></td>\n    </tr>\n"

/-- REPORT_TEST_WITH_OUTPUT_TMPL of HtmlFileTemplate (main.py lines 402-418): the per-case detail row. -/
def REPORT_TEST_WITH_OUTPUT_TMPL (tid Class style desc status script : String) : String :=
  "\n<tr id=\x27" ++ tid ++ "\x27 class=\x27" ++ Class ++ "\x27>\n    <td class=\x27" ++ style ++ "\x27><div class=\x27testcase\x27>" ++ desc ++ "</div></td>\n    <td colspan=\x275\x27 align=\x27center\x27>\n\n    <!-\x2dcss div popup start-\x2d>\n    <a class=\"popup_link\" onfocus=\x27this.blur();\x27 href=\"javascript:showTestDetail(\x27div_" ++ tid ++ "\x27)\" >\n        " ++ status ++ "</a>\n\n    <div id=\x27div_" ++ tid ++ "\x27 class=\"popup_window\">\n        <pre>" ++ script ++ "</pre>\n    </div>\n    <!-\x2dcss div popup end-\x2d>\n\n    </td>\n</tr>\n"

/-- REPORT_TEST_OUTPUT_TMPL of HtmlFileTemplate (main.py line 427). -/
def REPORT_TEST_OUTPUT_TMPL (id output : String) : String :=
  id ++ ": " ++ output

/-- ENDING_TMPL of HtmlFileTemplate (main.py line 433); a plain string. -/
def ENDING_TMPL : String :=
  "<div id=\x27ending\x27>&nbsp;</div>"

/-- The display tag computed by `HTMLTestRunner._generate_report_test`
(main.py lines 716-725): `pt{suite-display-id}.{case-id}` for a success,
`ft{suite-display-id}.{case-id}` otherwise — failures, errors and the residual
`UNKNOWN` status all take the `else` branches. -/
def caseTid (cid : Nat) (c : TestCase) : String :=
  if c.CaseStatus = TestCaseStatus.SUCCESS then
    "pt" ++ toString cid ++ "." ++ toString c.tid
  else if c.CaseStatus = TestCaseStatus.FAILURE then
    "ft" ++ toString cid ++ "." ++ toString c.tid
  else
    "ft" ++ toString cid ++ "." ++ toString c.tid

/-- The status label computed alongside the tag (main.py lines 716-725). -/
def caseStatusLabel (c : TestCase) : String :=
  if c.CaseStatus = TestCaseStatus.SUCCESS then "通过"
  else if c.CaseStatus = TestCaseStatus.FAILURE then "失败"
  else "错误"

/-- The per-case CSS class (main.py lines 738-743). -/
def caseStyle (c : TestCase) : String :=
  if c.CaseStatus = TestCaseStatus.SUCCESS then "none"
  else if c.CaseStatus = TestCaseStatus.FAILURE then "failCase"
  else "errorCase"

/-- `HTMLTestRunner._generate_report_test` (main.py lines 715-754): build one
detail row.  `has_output` is constantly `True`, so the with-output template is
always chosen and the trailing early return is dead.  Only the stack trace
goes through `escape`; the description / name fallback is inserted as is. -/
def generate_report_test (cid : Nat) (c : TestCase) : String :=
  let tid := caseTid cid c
  let desc := if c.CaseDescription.length = 0 then c.CaseName else c.CaseDescription
  let script := REPORT_TEST_OUTPUT_TMPL tid (escape c.ErrorStackTrace)
  REPORT_TEST_WITH_OUTPUT_TMPL tid "hiddenRow" (caseStyle c) desc (caseStatusLabel c) script

/-- Suite description fallback (main.py lines 669-672). -/
def suiteDesc (s : TestSuite) : String :=
  if s.SuiteDescription.length = 0 then s.SuiteName else s.SuiteDescription

/-- Suite CSS classification (main.py lines 674-679). -/
def suiteStyle (s : TestSuite) : String :=
  if s.ErrorCaseCount > 0 then "errorClass"
  else if s.FailedCaseCount > 0 then "failClass"
  else "passClass"

/-- The per-suite summary row built inside `_generate_report`
(main.py lines 680-691): the displayed total is the sum of the three
counters, and the reference id is `c{sid}`. -/
def suiteRow (s : TestSuite) : String :=
  REPORT_CLASS_TMPL (suiteStyle s) (suiteDesc s)
    (toString (s.PassedCaseCount + s.FailedCaseCount + s.ErrorCaseCount))
    (toString s.PassedCaseCount) (toString s.FailedCaseCount) (toString s.ErrorCaseCount)
    ("c" ++ toString s.sid)

/-- The suite loop of `_generate_report` (main.py lines 664-696): renumber
each stored suite's `sid` to its 1-based iteration position (`setSID(nPos)`,
an in-place mutation of the stored suite object), emit its summary row
followed by one detail row per case of its `TestCases` list, and return the
rows together with the renumbered suite objects. -/
def renderSuites : List TestSuite → Nat → Heap → List String × List TestSuite
  | [], _, _ => ([], [])
  | s :: rest, nPos, h =>
      let s2 := { s with sid := nPos }
      let rows := suiteRow s2 :: (h.lists s2.casesRef).map (fun c => generate_report_test s2.sid c)
      let pr := renderSuites rest (nPos + 1) h
      (rows ++ pr.1, s2 :: pr.2)

/-- `HTMLTestRunner._generate_report` (main.py lines 663-705): the report
table, together with the `TestResult` as the loop leaves it (its stored
suites renumbered in place). -/
def generate_report (result : TestResult) (h : Heap) : String × TestResult :=
  let pr := renderSuites result.TestResults 1 h
  (REPORT_TMPL (String.join pr.1)
     (toString (result.success_count + result.failure_count + result.error_count))
     (toString result.success_count) (toString result.failure_count)
     (toString result.error_count),
   { result with TestResults := pr.2 })

/-- `HTMLTestRunner._generate_chart` (main.py lines 707-713). -/
def generate_chart (result : TestResult) : String :=
  ECHARTS_SCRIPT (toString result.success_count) (toString result.failure_count)
    (toString result.error_count)

/-- `HTMLTestRunner._generate_heading` (main.py lines 648-661). -/
def generate_heading (self : HTMLTestRunner) (report_attrs : List (String × String)) : String :=
  let a_lines := report_attrs.map (fun nv => HEADING_ATTRIBUTE_TMPL (escape nv.1) (escape nv.2))
  HEADING_TMPL (escape self.title) (String.join a_lines) (escape self.description)

/-- The document-producing part of `HTMLTestRunner.generateReport`
(main.py lines 603-619); the subsequent file write and asset copy
(lines 620-643) are the emit step, outside the rendered text.  The chart is
generated from the result object after `_generate_report` has renumbered its
suites in place, exactly as in the source; it reads only the three global
counts.  The second component is the `TestResult` as rendering leaves it. -/
def generateReportText (self : HTMLTestRunner) (result : TestResult) (h : Heap) : String × TestResult :=
  let report_attrs := getReportAttributes self result
  let generator := "HTMLTestRunner " ++ versionString
  let stylesheet := STYLESHEET_TMPL
  let heading := generate_heading self report_attrs
  let pr := generate_report result h
  let ending := ENDING_TMPL
  let chart := generate_chart pr.2
  (HTML_TMPL (escape self.title) generator stylesheet heading pr.1 ending chart, pr.2)


/-- C1 scenario, step 1: a fresh suite receives one SUCCESS case. -/
def c1Suite : TestSuite × Heap :=
  TestSuite.addTestCase (newTestSuite emptyHeap).1
    { newTestCase with CaseStatus := TestCaseStatus.SUCCESS } (newTestSuite emptyHeap).2

/-- C1 scenario, step 2: that suite is added to a fresh result (`addSuite`
snapshots it via shallow `copy.copy`). -/
def c1Result : TestResult :=
  TestResult.addSuite newTestResult c1Suite.1

/-- C1 scenario, step 3: after the `addSuite`, the original suite is mutated by a
further `addTestCase` of a FAILURE case. -/
def c1Mutated : TestSuite × Heap :=
  TestSuite.addTestCase c1Suite.1
    { newTestCase with CaseStatus := TestCaseStatus.FAILURE } c1Suite.2

/-! Helper lemmas. -/

theorem leadsWith_append (p b : List Char) : leadsWith p (p ++ b) = true := by
  induction p with
  | nil => rfl
  | cons a p ih => simp [leadsWith, ih]

theorem occursIn_of_leadsWith {p l : List Char} (h : leadsWith p l = true) :
    occursIn p l = true := by
  cases l with
  | nil => simpa [occursIn] using h
  | cons b l => simp [occursIn, h]

theorem occursIn_append_left (a : List Char) {p l : List Char} (h : occursIn p l = true) :
    occursIn p (a ++ l) = true := by
  induction a with
  | nil => simpa using h
  | cons x a ih => simp [occursIn, ih]

theorem occursIn_head (A T B R : List Char) :
    occursIn (A ++ (T ++ B)) (A ++ (T ++ (B ++ R))) = true := by
  have h : A ++ (T ++ (B ++ R)) = (A ++ (T ++ B)) ++ R := by simp [List.append_assoc]
  rw [h]
  exact occursIn_of_leadsWith (leadsWith_append _ _)

theorem addTestCase_casesRef (s : TestSuite) (c : TestCase) (h : Heap) :
    (s.addTestCase c h).1.casesRef = s.casesRef := rfl

theorem addTestCase_max_tid (s : TestSuite) (c : TestCase) (h : Heap) :
    (s.addTestCase c h).1.max_tid = s.max_tid + 1 := rfl

theorem addTestCase_heap_at (s : TestSuite) (c : TestCase) (h : Heap) :
    (s.addTestCase c h).2.lists s.casesRef
      = h.lists s.casesRef ++ [{ c with tid := s.max_tid }] := by
  simp [TestSuite.addTestCase, Heap.update]

/-- State reached by a sequence of `addTestCase` calls: the list reference is stable,
the three counters absorb exactly the cases whose status is not `UNKNOWN`, and the case
ids appended to the suite's list object continue the `max_tid` sequence. -/
theorem addTestCases_state (cs : List TestCase) (s : TestSuite) (h : Heap) :
    (addTestCases s cs h).1.casesRef = s.casesRef ∧
    (addTestCases s cs h).1.PassedCaseCount + (addTestCases s cs h).1.FailedCaseCount +
        (addTestCases s cs h).1.ErrorCaseCount
      = s.PassedCaseCount + s.FailedCaseCount + s.ErrorCaseCount +
        (cs.filter (fun c => c.CaseStatus != TestCaseStatus.UNKNOWN)).length ∧
    ((addTestCases s cs h).2.lists s.casesRef).map TestCase.tid
      = (h.lists s.casesRef).map TestCase.tid ++ List.range' s.max_tid cs.length := by
  induction cs generalizing s h with
  | nil => simp [addTestCases]
  | cons c cs ih =>
      obtain ⟨ih1, ih2, ih3⟩ := ih (s.addTestCase c h).1 (s.addTestCase c h).2
      rw [addTestCase_casesRef] at ih1 ih3
      rw [addTestCase_max_tid, addTestCase_heap_at] at ih3
      have hunf : addTestCases s (c :: cs) h
          = addTestCases (s.addTestCase c h).1 cs (s.addTestCase c h).2 := rfl
      refine ⟨by rw [hunf]; exact ih1, ?_, ?_⟩
      · rw [hunf, ih2]
        cases hc : c.CaseStatus <;>
          simp [TestSuite.addTestCase, hc, List.filter_cons] <;> omega
      · rw [hunf, ih3]
        simp [List.range'_succ, List.append_assoc]

theorem renderSuites_suites (l : List TestSuite) (n : Nat) (h : Heap) :
    (renderSuites l n h).2.map TestSuite.sid = List.range' n l.length ∧
    (renderSuites l n h).2.map TestSuite.casesRef = l.map TestSuite.casesRef := by
  induction l generalizing n with
  | nil => simp [renderSuites]
  | cons s l ih =>
      obtain ⟨h1, h2⟩ := ih (n + 1)
      simp [renderSuites, h1, h2, List.range'_succ]

theorem foldl_addSuite_counts (l : List TestSuite) (r : TestResult)
    (hr : r.success_count = (r.TestResults.map TestSuite.PassedCaseCount).sum ∧
          r.failure_count = (r.TestResults.map TestSuite.FailedCaseCount).sum ∧
          r.error_count = (r.TestResults.map TestSuite.ErrorCaseCount).sum) :
    (List.foldl TestResult.addSuite r l).success_count
      = ((List.foldl TestResult.addSuite r l).TestResults.map TestSuite.PassedCaseCount).sum ∧
    (List.foldl TestResult.addSuite r l).failure_count
      = ((List.foldl TestResult.addSuite r l).TestResults.map TestSuite.FailedCaseCount).sum ∧
    (List.foldl TestResult.addSuite r l).error_count
      = ((List.foldl TestResult.addSuite r l).TestResults.map TestSuite.ErrorCaseCount).sum := by
  induction l generalizing r with
  | nil => exact hr
  | cons s l ih =>
      rw [List.foldl_cons]
      refine ih (TestResult.addSuite r s) ⟨?_, ?_, ?_⟩ <;>
        simp [TestResult.addSuite, hr.1, hr.2.1, hr.2.2]

theorem foldl_addSuite_sids (l : List TestSuite) (r : TestResult)
    (hr : r.max_sid = r.TestResults.length + 1 ∧
          r.TestResults.map TestSuite.sid = List.range' 1 r.TestResults.length) :
    (List.foldl TestResult.addSuite r l).max_sid
        = (List.foldl TestResult.addSuite r l).TestResults.length + 1 ∧
    (List.foldl TestResult.addSuite r l).TestResults.map TestSuite.sid
        = List.range' 1 (List.foldl TestResult.addSuite r l).TestResults.length := by
  induction l generalizing r with
  | nil => exact hr
  | cons s l ih =>
      rw [List.foldl_cons]
      refine ih (TestResult.addSuite r s) ⟨?_, ?_⟩
      · simp [TestResult.addSuite, hr.1]
      · rw [show (TestResult.addSuite r s).TestResults
              = r.TestResults ++ [{ s with sid := r.max_sid }] from rfl]
        rw [List.map_append, hr.2, List.length_append, List.length_singleton,
          List.range'_concat]
        simp [hr.1, Nat.add_comm]

theorem renderSuites_preserves (l : List TestSuite) (n : Nat) (h : Heap)
    (hl : l.map TestSuite.sid = List.range' n l.length) :
    (renderSuites l n h).2 = l := by
  induction l generalizing n with
  | nil => rfl
  | cons s l ih =>
      rw [List.map_cons, List.length_cons, List.range'_succ] at hl
      rw [List.cons_eq_cons] at hl
      obtain ⟨h1, h2⟩ := hl
      have hs : { s with sid := n } = s := by
        cases s
        subst h1
        rfl
      show ({ s with sid := n } :: (renderSuites l (n + 1) h).2) = s :: l
      rw [hs, ih (n + 1) h2]

theorem renderSuites_idem (l : List TestSuite) (n : Nat) (h : Heap) :
    renderSuites ((renderSuites l n h).2) n h = renderSuites l n h := by
  induction l generalizing n with
  | nil => rfl
  | cons s l ih => simp [renderSuites, ih (n + 1)]

theorem generate_report_preserves (r : TestResult) (h : Heap)
    (hr : r.TestResults.map TestSuite.sid = List.range' 1 r.TestResults.length) :
    (generate_report r h).2 = r := by
  show { r with TestResults := (renderSuites r.TestResults 1 h).2 } = r
  rw [renderSuites_preserves r.TestResults 1 h hr]

theorem generate_report_idem (r : TestResult) (h : Heap) :
    generate_report ((generate_report r h).2) h = generate_report r h := by
  simp [generate_report, renderSuites_idem]

theorem generateReportText_snd (self : HTMLTestRunner) (r : TestResult) (h : Heap) :
    (generateReportText self r h).2 = (generate_report r h).2 := rfl

theorem generateReportText_idem (self : HTMLTestRunner) (r : TestResult) (h : Heap) :
    generateReportText self ((generateReportText self r h).2) h
      = generateReportText self r h := by
  simp [generateReportText, generate_report, generate_chart, generate_heading,
    getReportAttributes, statusSummary, renderSuites_idem]

theorem statusSummary_eq_spec (result : TestResult) :
    statusSummary result = statusSummarySpec result := by
  unfold statusSummary statusSummarySpec
  rcases eq_or_ne result.success_count 0 with hs | hs <;>
  rcases eq_or_ne result.failure_count 0 with hf | hf <;>
  rcases eq_or_ne result.error_count 0 with he | he <;>
  simp [hs, hf, he]

/-! Claim theorems. -/

/-- C1 (code bug): `TestResult.addSuite` uses `copy.copy`, a shallow copy, so the suite
snapshot stored in the result shares its `TestCases` list object with the original suite.
Concretely: a suite with one successful case is added to a fresh result; a further
`addTestCase` of a failing case on the original suite then grows the stored snapshot's
case list from one to two entries (first two conjuncts), even though the result's global
aggregates and the snapshot's counters still describe the single case present at
`addSuite` time (remaining conjuncts).  The spec's snapshot-isolation requirement
("later mutation of the original Suite object must NOT affect a Result that already
holds it") is therefore violated by the code. -/
theorem snapshot_case_list_shared :
    (c1Result.TestResults.map (fun s => (c1Suite.2.lists s.casesRef).length) = [1]) ∧
    (c1Result.TestResults.map (fun s => (c1Mutated.2.lists s.casesRef).length) = [2]) ∧
    c1Result.success_count = 1 ∧ c1Result.failure_count = 0 ∧ c1Result.error_count = 0 ∧
    c1Result.TestResults.map TestSuite.PassedCaseCount = [1] ∧
    c1Result.TestResults.map TestSuite.FailedCaseCount = [0] := by decide

set_option maxRecDepth 10000 in
/-- C2 (code bug): `_generate_report_test` inserts the case description (or name
fallback) into the detail-row markup without passing it through `escape`; only the
stack trace is escaped.  For a case whose description is `a<b`, the rendered row
contains the raw text `a<b` and does not contain its escaped form `a&lt;b`, so a
markup-special character of free text reaches the document literally. -/
theorem description_inserted_unescaped :
    occursIn "a<b".data (generate_report_test 1
      { newTestCase with CaseStatus := TestCaseStatus.SUCCESS,
                         CaseDescription := "a<b", tid := 1 }).data = true ∧
    occursIn "a&lt;b".data (generate_report_test 1
      { newTestCase with CaseStatus := TestCaseStatus.SUCCESS,
                         CaseDescription := "a<b", tid := 1 }).data = false := by decide

/-- C3 counterexample: the claim `passCount + failCount + errorCount = len(cases)` for
cases of any status fails on the code at the one-element sequence consisting of a case
with status `UNKNOWN`: `addTestCase` appends the case but bumps no counter, so the sum
is 0 while the case list has length 1. -/
theorem counters_sum_fails_on_unknown :
    let sh := newTestSuite emptyHeap
    let p1 := addTestCases sh.1 [newTestCase] sh.2
    ¬ (p1.1.PassedCaseCount + p1.1.FailedCaseCount + p1.1.ErrorCaseCount
        = (p1.2.lists p1.1.casesRef).length) := by decide

/-- C3 amended: for every sequence of `addTestCase` calls on a fresh suite, after each
call `passCount + failCount + errorCount` equals the number of cases added so far whose
status is not `UNKNOWN`, while the suite's case list holds every case added (so the
original equality holds exactly when no `UNKNOWN` case was added). -/
theorem counters_sum_counts_classified_cases (cs : List TestCase) (h0 : Heap) :
    (addTestCases (newTestSuite h0).1 cs (newTestSuite h0).2).1.PassedCaseCount
        + (addTestCases (newTestSuite h0).1 cs (newTestSuite h0).2).1.FailedCaseCount
        + (addTestCases (newTestSuite h0).1 cs (newTestSuite h0).2).1.ErrorCaseCount
      = (cs.filter (fun c => c.CaseStatus != TestCaseStatus.UNKNOWN)).length ∧
    ((addTestCases (newTestSuite h0).1 cs (newTestSuite h0).2).2.lists
        (newTestSuite h0).1.casesRef).length = cs.length := by
  obtain ⟨-, h2, h3⟩ := addTestCases_state cs (newTestSuite h0).1 (newTestSuite h0).2
  have hempty : (newTestSuite h0).2.lists (newTestSuite h0).1.casesRef = [] := by
    simp [newTestSuite]
  rw [hempty] at h3
  constructor
  · rw [h2]
    simp [newTestSuite]
  · have := congrArg List.length h3
    simpa [newTestSuite] using this

/-- C4: after any sequence of `addSuite` calls on a fresh result, the global
`success_count` equals the sum of `PassedCaseCount` over the stored suites, and
likewise `failure_count` / `error_count` for the fail / error counters; the counts are
maintained incrementally by `addSuite` itself, with no recomputation pass. -/
theorem global_counts_equal_suite_sums (l : List TestSuite) :
    (List.foldl TestResult.addSuite newTestResult l).success_count
      = ((List.foldl TestResult.addSuite newTestResult l).TestResults.map
          TestSuite.PassedCaseCount).sum ∧
    (List.foldl TestResult.addSuite newTestResult l).failure_count
      = ((List.foldl TestResult.addSuite newTestResult l).TestResults.map
          TestSuite.FailedCaseCount).sum ∧
    (List.foldl TestResult.addSuite newTestResult l).error_count
      = ((List.foldl TestResult.addSuite newTestResult l).TestResults.map
          TestSuite.ErrorCaseCount).sum :=
  foldl_addSuite_counts l newTestResult ⟨rfl, rfl, rfl⟩

/-- C6: the status attribute emitted by `getReportAttributes` is exactly the
space-separated concatenation of the non-zero categories among the pass, failure and
error counts, and the literal `"none"` when all three are zero
(`statusSummarySpec` is the specification's wording of that rule). -/
theorem report_status_summary_matches_spec (self : HTMLTestRunner) (result : TestResult) :
    getReportAttributes self result
      = [("开始时间", self.startTimeStr), ("运行时长", self.durationStr),
         ("状态", statusSummarySpec result)] := by
  rw [show getReportAttributes self result
      = [("开始时间", self.startTimeStr), ("运行时长", self.durationStr),
         ("状态", statusSummary result)] from rfl]
  rw [statusSummary_eq_spec]

/-- C7: case ids assigned by a fresh suite are exactly the strictly increasing sequence
1, 2, 3, ... in insertion order (first conjunct); the renderer overwrites the stored
suite ids with 1..N in iteration order, regardless of their previous values (second
conjunct); and rendering leaves every stored suite's case list object — and hence the
case ids it contains — untouched (third conjunct; the renderer takes the heap read-only
and returns no modified heap). -/
theorem case_ids_sequential_suite_ids_renumbered
    (cs : List TestCase) (h0 : Heap) (r : TestResult) (h : Heap) :
    ((addTestCases (newTestSuite h0).1 cs (newTestSuite h0).2).2.lists
        (newTestSuite h0).1.casesRef).map TestCase.tid = List.range' 1 cs.length ∧
    (generate_report r h).2.TestResults.map TestSuite.sid
      = List.range' 1 r.TestResults.length ∧
    (generate_report r h).2.TestResults.map TestSuite.casesRef
      = r.TestResults.map TestSuite.casesRef := by
  refine ⟨?_, ?_, ?_⟩
  · obtain ⟨-, -, h3⟩ := addTestCases_state cs (newTestSuite h0).1 (newTestSuite h0).2
    have hempty : (newTestSuite h0).2.lists (newTestSuite h0).1.casesRef = [] := by
      simp [newTestSuite]
    rw [hempty] at h3
    simpa [newTestSuite] using h3
  · exact (renderSuites_suites r.TestResults 1 h).1
  · exact (renderSuites_suites r.TestResults 1 h).2

theorem split_tr_id : ("\n<tr id=\x27").data = ("\n").data ++ ("<tr id=\x27").data := rfl

theorem split_q_class : ("\x27 class=\x27").data = ("\x27").data ++ (" class=\x27").data := rfl

theorem split_tr_class :
    ("\n    <tr class=\x27").data = ("\n    <tr ").data ++ ("class=\x27").data := rfl

theorem split_q_td :
    ("\x27>\n        <td>").data = ("\x27").data ++ (">\n        <td>").data := rfl

theorem split_tdc :
    ("</td>\n        <td>").data = ("</td>").data ++ ("\n        <td>").data := rfl

theorem split_ntd : ("\n        <td>").data = ("\n        ").data ++ ("<td>").data := rfl

/-- C5: the detail-row display tag is `pt{S}.{C}` for a case with status Success and
`ft{S}.{C}` for a case with status Failure or Error, where `S` is the suite display id
and `C` the case id; the prefix depends only on the status.  The third conjunct shows
the tag is what the emitted row actually carries: `<tr id='{tag}'` occurs in the row
text produced by `_generate_report_test`. -/
theorem display_tag_from_status (cid : Nat) (c : TestCase) :
    (c.CaseStatus = TestCaseStatus.SUCCESS →
       caseTid cid c = "pt" ++ toString cid ++ "." ++ toString c.tid) ∧
    (c.CaseStatus = TestCaseStatus.FAILURE ∨ c.CaseStatus = TestCaseStatus.ERROR →
       caseTid cid c = "ft" ++ toString cid ++ "." ++ toString c.tid) ∧
    occursIn ("<tr id=\x27" ++ caseTid cid c ++ "\x27").data
      (generate_report_test cid c).data = true := by
  refine ⟨?_, ?_, ?_⟩
  · intro hc
    simp [caseTid, hc]
  · rintro (hc | hc) <;> simp [caseTid, hc]
  · simp only [generate_report_test, REPORT_TEST_WITH_OUTPUT_TMPL, REPORT_TEST_OUTPUT_TMPL,
      String.data_append, split_tr_id, split_q_class, List.append_assoc]
    repeat
      first
      | exact occursIn_head _ _ _ _
      | apply occursIn_append_left

/-- Witness for C5: concrete instances, as in the specification's examples — a Success
case in suite display-id 3 with case-id 2 yields tag `pt3.2`, a Failure case in suite
display-id 1 with case-id 5 yields tag `ft1.5`. -/
theorem display_tag_from_status_witness :
    caseTid 3 { newTestCase with CaseStatus := TestCaseStatus.SUCCESS, tid := 2 } = "pt3.2" ∧
    caseTid 1 { newTestCase with CaseStatus := TestCaseStatus.FAILURE, tid := 5 } = "ft1.5" :=
  ⟨((display_tag_from_status 3 _).1 rfl).trans (by decide),
   ((display_tag_from_status 1 _).2.1 (Or.inl rfl)).trans (by decide)⟩

/-- C8: the summary row of a rendered suite carries the CSS classification
`errorClass` if the suite's error counter is positive, else `failClass` if its fail
counter is positive, else `passClass` (first conjunct: `class='…'` with exactly that
conditional occurs in the row), and the row's displayed total cell is the sum of the
three counters (second conjunct: `<td>{pass+fail+error}</td>` occurs in the row). -/
theorem suite_row_class_and_total (s : TestSuite) :
    occursIn ("class=\x27" ++ (if s.ErrorCaseCount > 0 then "errorClass"
        else if s.FailedCaseCount > 0 then "failClass" else "passClass") ++ "\x27").data
      (suiteRow s).data = true ∧
    occursIn ("<td>" ++ toString (s.PassedCaseCount + s.FailedCaseCount + s.ErrorCaseCount)
        ++ "</td>").data (suiteRow s).data = true := by
  have hstyle : (if s.ErrorCaseCount > 0 then "errorClass"
      else if s.FailedCaseCount > 0 then "failClass" else "passClass") = suiteStyle s := rfl
  rw [hstyle]
  constructor
  · simp only [suiteRow, REPORT_CLASS_TMPL, String.data_append, split_tr_class, split_q_td,
      split_tdc, split_ntd, List.append_assoc]
    repeat
      first
      | exact occursIn_head _ _ _ _
      | apply occursIn_append_left
  · simp only [suiteRow, REPORT_CLASS_TMPL, String.data_append, split_tr_class, split_q_td,
      split_tdc, split_ntd, List.append_assoc]
    repeat
      first
      | exact occursIn_head _ _ _ _
      | apply occursIn_append_left

/-- C9: rendering is a pure function of the result and the presentation metadata.
For every result reachable by a sequence of `addSuite` calls, the in-place suite-id
renumbering that `_generate_report` performs rewrites each stored suite's id to the
value it already has, so rendering leaves the result unchanged (first conjunct); and
re-rendering any once-rendered result — same metadata `self`, same heap — reproduces
byte-identical document text and the identical result (second conjunct), so two
renderings of the same result agree byte for byte. -/
theorem render_deterministic_and_preserves_result
    (self : HTMLTestRunner) (h : Heap) (l : List TestSuite) :
    (generateReportText self (List.foldl TestResult.addSuite newTestResult l) h).2
      = List.foldl TestResult.addSuite newTestResult l ∧
    ∀ r : TestResult,
      generateReportText self ((generateReportText self r h).2) h
        = generateReportText self r h := by
  constructor
  · rw [generateReportText_snd]
    exact generate_report_preserves (List.foldl TestResult.addSuite newTestResult l) h
      (foldl_addSuite_sids l newTestResult ⟨rfl, rfl⟩).2
  · intro r
    exact generateReportText_idem self r h

/-- C10: a case with status `UNKNOWN` is rendered exactly like an Error case — its
display tag takes the `ft` prefix, its CSS class is `errorCase` and its status label is
the error label `错误` — while `addTestCase` leaves all three suite counters unchanged
and still appends the case to the suite's list (last conjunct), so the case gets a
detail row (the renderer emits one row per list entry) but is counted in no suite or
global total. -/
theorem unknown_rendered_as_error (cid : Nat) (c : TestCase)
    (hc : c.CaseStatus = TestCaseStatus.UNKNOWN) :
    caseTid cid c = "ft" ++ toString cid ++ "." ++ toString c.tid ∧
    caseStyle c = "errorCase" ∧
    caseStatusLabel c = "错误" ∧
    (∀ (s : TestSuite) (h : Heap),
      (s.addTestCase c h).1.PassedCaseCount = s.PassedCaseCount ∧
      (s.addTestCase c h).1.FailedCaseCount = s.FailedCaseCount ∧
      (s.addTestCase c h).1.ErrorCaseCount = s.ErrorCaseCount ∧
      (s.addTestCase c h).2.lists s.casesRef
        = h.lists s.casesRef ++ [{ c with tid := s.max_tid }]) := by
  refine ⟨?_, ?_, ?_, fun s h => ⟨?_, ?_, ?_, ?_⟩⟩ <;>
    simp [caseTid, caseStyle, caseStatusLabel, TestSuite.addTestCase, Heap.update, hc]

/-- Witness for C10 at the concrete freshly-constructed case, whose status is
`UNKNOWN`. -/
theorem unknown_rendered_as_error_witness :
    caseStyle newTestCase = "errorCase" ∧ caseStatusLabel newTestCase = "错误" :=
  ⟨(unknown_rendered_as_error 1 newTestCase rfl).2.1,
   (unknown_rendered_as_error 1 newTestCase rfl).2.2.1⟩
